import Mathlib

/-!
Verification model of the Buy Side Bro mobile shell (React Native WebView app).

The embedding follows the TypeScript sources:
* the App component (cookie restore, session observation, logout detection,
  navigation policy) and
* the notifications module (push registration and unregistration, deep links).

Pure string computations of JavaScript (includes, startsWith, toLowerCase,
JSON.stringify) are modelled as executable Lean functions on the character
data of strings.  Effectful platform calls (SecureStore, CookieManager,
Notifications, fetch) are modelled by explicit state passing: inputs that the
platform can return, including a thrown exception, are fields of an
environment record, and each handler is a pure function from the environment
and the current state to the resulting state together with an explicit record
of the externally observable effects it performed.
-/

namespace BuySideBro

/-- Model of the JavaScript string method includes: substring containment. -/
def jsIncludes (s pat : String) : Bool :=
  decide (pat.data <:+: s.data)

/-- Model of the JavaScript string method startsWith. -/
def jsStartsWith (s pat : String) : Bool :=
  decide (pat.data <+: s.data)

/-- Model of the JavaScript string method toLowerCase (character-wise, as the
ASCII-relevant fragment used by the app). -/
def jsToLowerCase (s : String) : String :=
  String.mk (s.data.map Char.toLower)

/-- The site loaded by the WebView (constant WEBSITE_URL of the source). -/
def WEBSITE_URL : String := "https://www.buysidebro.com"

/-- The origin token used by the navigation policy (constant WEBSITE_ORIGIN). -/
def WEBSITE_ORIGIN : String := "buysidebro.com"

/-- Base URL of the remote API (constant API_BASE of the notifications module;
textually equal to WEBSITE_URL). -/
def API_BASE : String := "https://www.buysidebro.com"

/-- A cookie record as delivered by CookieManager.get / stored in a snapshot.
Fields that a cookie object may lack (domain, path, secure, httpOnly,
expires) are options. -/
structure Cookie where
  name : String
  value : String
  domain : Option String := none
  path : Option String := none
  secure : Option Bool := none
  httpOnly : Option Bool := none
  expires : Option String := none
deriving DecidableEq

/-- The Cookies map of the cookie-manager API: cookie name keys paired with
cookie records, in object-key order. -/
abbrev Cookies := List (String × Cookie)

/-- A fully defaulted cookie as passed to CookieManager.set by restoreCookies. -/
structure JarCookie where
  name : String
  value : String
  domain : String
  path : String
  secure : Bool
  httpOnly : Bool
  expires : Option String
deriving DecidableEq

/-- The native cookie jar, as the sequence of cookies set since the last clear. -/
abbrev CookieJar := List JarCookie

/-- Model of the JavaScript or-else idiom v or-default (the binary operator
that substitutes the default when v is undefined, null or the empty string). -/
def jsStringOr (v : Option String) (dflt : String) : String :=
  match v with
  | none => dflt
  | some s => if s = "" then dflt else s

/-- The cookie record that restoreCookies passes to CookieManager.set for a
snapshot cookie: domain defaults to ".buysidebro.com", path to "/", secure
to true, httpOnly to false. -/
def toJarCookie (cookie : Cookie) : JarCookie :=
  { name := cookie.name
    value := cookie.value
    domain := jsStringOr cookie.domain ".buysidebro.com"
    path := jsStringOr cookie.path "/"
    secure := cookie.secure.getD true
    httpOnly := cookie.httpOnly.getD false
    expires := cookie.expires }

/-- CookieManager.clearAll: empties the jar. -/
def clearAll (_jar : CookieJar) : CookieJar := []

/-- CookieManager.set: appends the cookie to the jar. -/
def setCookie (jar : CookieJar) (c : JarCookie) : CookieJar := jar ++ [c]

/-- restoreCookies applied to an already parsed snapshot (the function is only
reached with a snapshot that JSON.parse accepted; a parse failure is caught
and returns false before any jar operation): clear the whole jar, then set
each cookie of the snapshot, with defaults, in order. -/
def restoreCookies (cookies : Cookies) (jar : CookieJar) : CookieJar :=
  (cookies.map Prod.snd).foldl (fun j c => setCookie j (toJarCookie c)) (clearAll jar)

/-- hasSessionCookie: some cookie name of the map contains one of the five
session markers as a substring. -/
def hasSessionCookie (cookies : Cookies) : Bool :=
  (cookies.map Prod.fst).any fun name =>
    jsIncludes name "session" || jsIncludes name "sid" || jsIncludes name "connect" ||
      jsIncludes name "auth" || jsIncludes name "token"

/-- Escaping of one character inside a JSON string literal (quote and
backslash; the cookie data of this app contains no control characters). -/
def jsonEscapeChar (c : Char) : List Char :=
  if c = '"' ∨ c = '\\' then ['\\', c] else [c]

/-- A JSON string literal. -/
def jsonQuote (s : String) : String :=
  "\"" ++ String.mk (s.data.map jsonEscapeChar).flatten ++ "\""

/-- A JSON boolean literal. -/
def jsonBool (b : Bool) : String := if b then "true" else "false"

/-- A JSON object from already rendered member strings. -/
def jsonObject (members : List String) : String :=
  "\x7b" ++ String.intercalate "," members ++ "\x7d"

/-- Models the JavaScript builtin JSON.stringify on one cookie record: the
defined fields in declaration order, absent optional fields omitted. -/
def jsonStringifyCookie (c : Cookie) : String :=
  jsonObject
    ([jsonQuote "name" ++ ":" ++ jsonQuote c.name,
      jsonQuote "value" ++ ":" ++ jsonQuote c.value] ++
     (match c.domain with
      | some d => [jsonQuote "domain" ++ ":" ++ jsonQuote d]
      | none => []) ++
     (match c.path with
      | some p => [jsonQuote "path" ++ ":" ++ jsonQuote p]
      | none => []) ++
     (match c.secure with
      | some b => [jsonQuote "secure" ++ ":" ++ jsonBool b]
      | none => []) ++
     (match c.httpOnly with
      | some b => [jsonQuote "httpOnly" ++ ":" ++ jsonBool b]
      | none => []) ++
     (match c.expires with
      | some e => [jsonQuote "expires" ++ ":" ++ jsonQuote e]
      | none => []))

/-- Models the JavaScript builtin JSON.stringify on the whole cookie map, in
object-key order. -/
def jsonStringifyCookies (cookies : Cookies) : String :=
  jsonObject (cookies.map fun p => jsonQuote p.1 ++ ":" ++ jsonStringifyCookie p.2)

/-- The two SecureStore keys written by the App component: the serialized
cookie snapshot (key session_cookies) and the biometric flag
(key biometric_enabled).  A value of none means the key is absent. -/
structure SecureStoreState where
  sessionCookies : Option String
  biometricEnabled : Option String
deriving DecidableEq

/-- Model of JavaScript truthiness on a SecureStore read result: null and the
empty string are falsy. -/
def jsTruthyStr : Option String → Bool
  | none => false
  | some s => if s = "" then false else true

/-- Result of one run of saveCookiesIfLoggedIn: the SecureStore contents and
the value passed to setIsLoggedIn. -/
structure SaveCookiesResult where
  store : SecureStoreState
  isLoggedIn : Bool
deriving DecidableEq

/-- saveCookiesIfLoggedIn, given the cookie map read from CookieManager.get
and the current SecureStore contents.  With a session cookie present the
snapshot and the flag "true" are written only when the serialized JSON is
shorter than 2000; without a session cookie both keys are deleted when a
snapshot was previously stored (JavaScript truthiness on the read value). -/
def saveCookiesIfLoggedIn (cookies : Cookies) (store : SecureStoreState) :
    SaveCookiesResult :=
  if hasSessionCookie cookies then
    let json := jsonStringifyCookies cookies
    if json.length < 2000 then
      ⟨{ store with sessionCookies := some json, biometricEnabled := some "true" }, true⟩
    else
      ⟨store, true⟩
  else
    if jsTruthyStr store.sessionCookies then
      ⟨{ store with sessionCookies := none, biometricEnabled := none }, false⟩
    else
      ⟨store, false⟩

/-- The navigation event delivered to onNavigationStateChange. -/
structure NavState where
  url : String
  canGoBack : Bool
deriving DecidableEq

/-- The App state touched by onNavigationStateChange. -/
structure AppState where
  store : SecureStoreState
  notificationRegistered : Bool
  isLoggedIn : Bool
  canGoBack : Bool
deriving DecidableEq

/-- Result of one run of onNavigationStateChange: the new App state plus
whether unregisterPushNotifications was invoked. -/
structure NavChangeResult where
  state : AppState
  unregisterInvoked : Bool
deriving DecidableEq

/-- onNavigationStateChange: records canGoBack, then lowercases the URL and,
when it contains one of the three logout patterns, deletes both SecureStore
keys, invokes push unregistration, resets the one-shot registration flag and
marks logged-out. -/
def onNavigationStateChange (navState : NavState) (st : AppState) : NavChangeResult :=
  let st := { st with canGoBack := navState.canGoBack }
  let url := jsToLowerCase navState.url
  if jsIncludes url "/logout" || jsIncludes url "/signout" || jsIncludes url "/logged-out" then
    ⟨{ st with store := ⟨none, none⟩, notificationRegistered := false, isLoggedIn := false },
      true⟩
  else
    ⟨st, false⟩

/-- Decision of the navigation policy: the boolean returned to the WebView and
whether Linking.openURL was invoked. -/
structure LoadRequestDecision where
  allow : Bool
  openedExternally : Bool
deriving DecidableEq

/-- onShouldStartLoadWithRequest: allow in-app when the URL contains the
origin token or starts with about: or data:, otherwise dispatch the URL to
the system browser and block. -/
def onShouldStartLoadWithRequest (url : String) : LoadRequestDecision :=
  if jsIncludes url WEBSITE_ORIGIN then ⟨true, false⟩
  else if jsStartsWith url "about:" || jsStartsWith url "data:" then ⟨true, false⟩
  else ⟨false, true⟩

deriving instance DecidableEq for Except

/-- Outcomes the platform hands to the notifications module.  Each effectful
call either returns a value or throws (Except.error ()).  Permission results
carry the status string; a fetch that completes carries the HTTP status
code, a fetch that fails at network level throws. -/
structure PushEnv where
  isDevice : Bool
  getPermissionsResult : Except Unit String
  requestPermissionsResult : Except Unit String
  getDevicePushTokenResult : Except Unit String
  fetchRegisterResult : Except Unit Nat
  fetchUnregisterResult : Except Unit Nat
deriving DecidableEq

/-- The ok field of a fetch Response: status in the range 200 to 299. -/
def responseOk (status : Nat) : Bool := 200 ≤ status && status ≤ 299

/-- Result of one run of registerForPushNotifications: the returned value
(Except.error for an exception that escapes the function), the locally
stored device token afterwards, and whether the registration POST was
issued. -/
structure RegisterOutcome where
  ret : Except Unit (Option String)
  storedToken : Option String
  networkCalled : Bool
deriving DecidableEq

/-- registerForPushNotifications: null on non-physical devices; query and, if
needed, request permission; null when denied; fetch the native device token;
POST it to the backend inside a try block that also covers the local store
write; a non-success status or a caught exception gives null, success stores
the token and returns it.  The permission queries and the token fetch are
outside the try block, so an exception there escapes. -/
def registerForPushNotifications (env : PushEnv) (storedToken : Option String) :
    RegisterOutcome :=
  if !env.isDevice then ⟨.ok none, storedToken, false⟩
  else
    match env.getPermissionsResult with
    | .error e => ⟨.error e, storedToken, false⟩
    | .ok existingStatus =>
      let finalStatusResult : Except Unit String :=
        if existingStatus ≠ "granted" then env.requestPermissionsResult
        else .ok existingStatus
      match finalStatusResult with
      | .error e => ⟨.error e, storedToken, false⟩
      | .ok finalStatus =>
        if finalStatus ≠ "granted" then ⟨.ok none, storedToken, false⟩
        else
          match env.getDevicePushTokenResult with
          | .error e => ⟨.error e, storedToken, false⟩
          | .ok deviceToken =>
            match env.fetchRegisterResult with
            | .error _ => ⟨.ok none, storedToken, true⟩
            | .ok status =>
              if !responseOk status then ⟨.ok none, storedToken, true⟩
              else ⟨.ok (some deviceToken), some deviceToken, true⟩

/-- Result of one run of unregisterPushNotifications: the locally stored
device token afterwards and whether the DELETE request was issued.  The
function returns void and catches every exception, so no error field. -/
structure UnregisterOutcome where
  storedToken : Option String
  networkCalled : Bool
deriving DecidableEq

/-- unregisterPushNotifications: early return when no token is stored
(JavaScript truthiness); otherwise issue the DELETE and remove the local
token afterwards.  A thrown fetch is caught, skipping the removal. -/
def unregisterPushNotifications (env : PushEnv) (storedToken : Option String) :
    UnregisterOutcome :=
  if !jsTruthyStr storedToken then ⟨storedToken, false⟩
  else
    match env.fetchUnregisterResult with
    | .error _ => ⟨storedToken, true⟩
    | .ok _ => ⟨none, true⟩

/-- A defined JavaScript value as far as the deep-link mapping inspects it:
a string, or some non-string value. -/
inductive JsValue where
  | str : String → JsValue
  | nonString : JsValue
deriving DecidableEq

/-- The data payload of a notification, restricted to the three fields the
deep-link mapping reads; none models an absent field. -/
structure NotificationData where
  type : Option JsValue
  symbol : Option JsValue
  market : Option JsValue
deriving DecidableEq

/-- getDeepLinkUrl: type price_alert with a string symbol maps to the stock
detail path; type summary with a string market maps to the news path;
everything else maps to null. -/
def getDeepLinkUrl (data : NotificationData) : Option String :=
  match data.type, data.symbol, data.market with
  | some (.str "price_alert"), some (.str s), _ => some (API_BASE ++ "/stock/" ++ s)
  | some (.str "summary"), _, some (.str _) => some (API_BASE ++ "/news")
  | _, _, _ => none

/-- A concrete snapshot cookie with no domain and no path, used to instantiate
universally quantified theorems. -/
def sampleSnapshotCookie : Cookie := { name := "sid", value := "abc" }

/-- A concrete jar cookie representing a residual cookie set before a restore. -/
def staleJarCookie : JarCookie :=
  { name := "old", value := "x", domain := "other.example", path := "/",
    secure := false, httpOnly := false, expires := none }

theorem jsIncludes_iff (s pat : String) :
    jsIncludes s pat = true ↔ pat.data <:+: s.data := by
  simp [jsIncludes]

theorem jsStartsWith_iff (s pat : String) :
    jsStartsWith s pat = true ↔ pat.data <+: s.data := by
  simp [jsStartsWith]

theorem foldl_setCookie (l : List Cookie) (acc : CookieJar) :
    l.foldl (fun j c => setCookie j (toJarCookie c)) acc = acc ++ l.map toJarCookie := by
  induction l generalizing acc with
  | nil => simp
  | cons c t ih =>
    rw [List.foldl_cons, ih]
    simp [setCookie]

/-- C2: the navigation policy returns the in-app decision exactly when the URL
contains the origin token buysidebro.com as a substring or starts with
about: or data:, and it dispatches the URL to the system browser exactly
when it blocks; in particular every URL free of the token and of the two
scheme markers yields the external-open decision. -/
theorem onShouldStartLoad_characterization (url : String) :
    ((onShouldStartLoadWithRequest url).allow = true ↔
      ("buysidebro.com".data <:+: url.data ∨ "about:".data <+: url.data ∨
        "data:".data <+: url.data)) ∧
    ((onShouldStartLoadWithRequest url).openedExternally = true ↔
      (onShouldStartLoadWithRequest url).allow = false) := by
  unfold onShouldStartLoadWithRequest WEBSITE_ORIGIN jsIncludes jsStartsWith
  by_cases h1 : "buysidebro.com".data <:+: url.data <;>
    by_cases h2 : "about:".data <+: url.data <;>
      by_cases h3 : "data:".data <+: url.data <;>
        simp [h1, h2, h3]

/-- C3: hasSessionCookie holds exactly when some cookie name of the map
contains one of the markers session, sid, connect, auth, token as a
case-sensitive substring. -/
theorem hasSessionCookie_iff_marker (cookies : Cookies) :
    hasSessionCookie cookies = true ↔
      ∃ p ∈ cookies,
        "session".data <:+: p.1.data ∨ "sid".data <:+: p.1.data ∨
        "connect".data <:+: p.1.data ∨ "auth".data <:+: p.1.data ∨
        "token".data <:+: p.1.data := by
  unfold hasSessionCookie jsIncludes
  rw [List.any_eq_true]
  constructor
  · rintro ⟨name, hmem, hname⟩
    rw [List.mem_map] at hmem
    obtain ⟨p, hp, rfl⟩ := hmem
    refine ⟨p, hp, ?_⟩
    simpa [or_assoc] using hname
  · rintro ⟨p, hp, hdisj⟩
    refine ⟨p.1, List.mem_map.mpr ⟨p, hp, rfl⟩, ?_⟩
    simpa [or_assoc] using hdisj

/-- C4: restoring a parsed snapshot first clears the jar and then sets exactly
the snapshot cookies: the resulting jar is the snapshot image under the
defaulting map, independent of the prior jar contents, and the defaulting
map substitutes .buysidebro.com for a missing domain and / for a missing
path. -/
theorem restoreCookies_snapshot_exact (cookies : Cookies) (jar : CookieJar) :
    restoreCookies cookies jar = cookies.map (fun p => toJarCookie p.2) ∧
    (∀ c : Cookie, c.domain = none → (toJarCookie c).domain = ".buysidebro.com") ∧
    (∀ c : Cookie, c.path = none → (toJarCookie c).path = "/") := by
  refine ⟨?_, ?_, ?_⟩
  · unfold restoreCookies clearAll
    rw [foldl_setCookie]
    simp [List.map_map]
  · intro c h
    simp [toJarCookie, h, jsStringOr]
  · intro c h
    simp [toJarCookie, h, jsStringOr]

/-- Witness for C4 at a one-cookie snapshot over a non-empty stale jar. -/
theorem restoreCookies_snapshot_exact_witness :
    restoreCookies [("sid", sampleSnapshotCookie)] [staleJarCookie] =
      [{ name := "sid", value := "abc", domain := ".buysidebro.com", path := "/",
         secure := true, httpOnly := false, expires := none }] ∧
    (toJarCookie sampleSnapshotCookie).domain = ".buysidebro.com" := by
  refine ⟨?_, (restoreCookies_snapshot_exact [("sid", sampleSnapshotCookie)]
    [staleJarCookie]).2.1 sampleSnapshotCookie rfl⟩
  rw [(restoreCookies_snapshot_exact [("sid", sampleSnapshotCookie)] [staleJarCookie]).1]
  decide

/-- A concrete one-cookie map whose single name carries a session marker. -/
def sampleSessionCookies : Cookies := [("sid", { name := "sid", value := "abc" })]

/-- A concrete logout URL whose logout pattern is upper case. -/
def logoutUpperUrl : String := "https://www.buysidebro.com/LOGOUT"

/-- A concrete logged-in App state with both SecureStore keys present. -/
def sampleLoggedInState : AppState :=
  { store := ⟨some "cookies", some "true"⟩, notificationRegistered := true,
    isLoggedIn := true, canGoBack := false }

/-- C5: with a session cookie present, a serialized cookie JSON of length at
least 2000 leaves the SecureStore untouched while the logged-in state is
still set to true; below the threshold both the snapshot and the flag value
true are persisted. -/
theorem saveCookies_threshold (cookies : Cookies) (store : SecureStoreState)
    (hsession : hasSessionCookie cookies = true) :
    ((jsonStringifyCookies cookies).length ≥ 2000 →
      saveCookiesIfLoggedIn cookies store = ⟨store, true⟩) ∧
    ((jsonStringifyCookies cookies).length < 2000 →
      saveCookiesIfLoggedIn cookies store =
        ⟨{ store with
            sessionCookies := some (jsonStringifyCookies cookies)
            biometricEnabled := some "true" }, true⟩) := by
  constructor
  · intro h
    simp [saveCookiesIfLoggedIn, hsession, Nat.not_lt.mpr h]
  · intro h
    simp [saveCookiesIfLoggedIn, hsession, h]

/-- Witness for C5 at a small cookie map below the threshold. -/
theorem saveCookies_threshold_witness :
    hasSessionCookie sampleSessionCookies = true ∧
    (jsonStringifyCookies sampleSessionCookies).length < 2000 ∧
    saveCookiesIfLoggedIn sampleSessionCookies ⟨none, none⟩ =
      ⟨⟨some (jsonStringifyCookies sampleSessionCookies), some "true"⟩, true⟩ :=
  ⟨by decide, by decide,
    (saveCookies_threshold sampleSessionCookies ⟨none, none⟩ (by decide)).2 (by decide)⟩

/-- C6 counterexample: the URL .../LOGOUT contains none of the three patterns
as a case-sensitive substring, yet the handler deletes both SecureStore keys
and invokes push unregistration, because the source lowercases the URL
before matching. -/
theorem nav_logout_case_counterexample :
    jsIncludes logoutUpperUrl "/logout" = false ∧
    jsIncludes logoutUpperUrl "/signout" = false ∧
    jsIncludes logoutUpperUrl "/logged-out" = false ∧
    (onNavigationStateChange ⟨logoutUpperUrl, false⟩ sampleLoggedInState).state.store =
      ⟨none, none⟩ ∧
    (onNavigationStateChange ⟨logoutUpperUrl, false⟩ sampleLoggedInState).unregisterInvoked =
      true := by
  decide

/-- C6 amended: matching is against the lowercased full URL.  When the
lowercased URL contains one of the patterns, the handler deletes both keys,
invokes push unregistration, resets the one-shot registration flag and marks
logged-out, whatever the prior state; when it contains none, only canGoBack
is recorded and none of those effects occur. -/
theorem nav_logout_detection (nav : NavState) (st : AppState) :
    ((jsIncludes (jsToLowerCase nav.url) "/logout" = true ∨
      jsIncludes (jsToLowerCase nav.url) "/signout" = true ∨
      jsIncludes (jsToLowerCase nav.url) "/logged-out" = true) →
      onNavigationStateChange nav st =
        ⟨{ store := ⟨none, none⟩, notificationRegistered := false, isLoggedIn := false,
           canGoBack := nav.canGoBack }, true⟩) ∧
    ((jsIncludes (jsToLowerCase nav.url) "/logout" = false ∧
      jsIncludes (jsToLowerCase nav.url) "/signout" = false ∧
      jsIncludes (jsToLowerCase nav.url) "/logged-out" = false) →
      onNavigationStateChange nav st = ⟨{ st with canGoBack := nav.canGoBack }, false⟩) := by
  constructor
  · intro h
    unfold onNavigationStateChange
    rcases h with h | h | h <;> simp [h]
  · rintro ⟨h1, h2, h3⟩
    unfold onNavigationStateChange
    simp [h1, h2, h3]

/-- Witness for C6 at a lower-case logout navigation. -/
theorem nav_logout_detection_witness :
    onNavigationStateChange ⟨"https://www.buysidebro.com/account/logout", true⟩
        sampleLoggedInState =
      ⟨{ store := ⟨none, none⟩, notificationRegistered := false, isLoggedIn := false,
         canGoBack := true }, true⟩ :=
  (nav_logout_detection ⟨"https://www.buysidebro.com/account/logout", true⟩
    sampleLoggedInState).1 (Or.inl (by decide))

/-- C7 counterexample: a payload of type summary with no market field maps to
null, though the claim maps every type summary payload to the news path. -/
theorem getDeepLinkUrl_summary_counterexample :
    (⟨some (JsValue.str "summary"), none, none⟩ : NotificationData).type =
      some (JsValue.str "summary") ∧
    getDeepLinkUrl ⟨some (JsValue.str "summary"), none, none⟩ = none := by
  decide

/-- C7 amended: a payload of type price_alert with a string symbol maps to the
stock detail path for that symbol; a payload of type summary with a string
market field maps to the news path; every other payload maps to null. -/
theorem getDeepLinkUrl_spec (d : NotificationData) :
    (∀ s, d.type = some (JsValue.str "price_alert") → d.symbol = some (JsValue.str s) →
      getDeepLinkUrl d = some (API_BASE ++ "/stock/" ++ s)) ∧
    (∀ m, d.type = some (JsValue.str "summary") → d.market = some (JsValue.str m) →
      getDeepLinkUrl d = some (API_BASE ++ "/news")) ∧
    ((d.type = some (JsValue.str "price_alert") → ∀ s, d.symbol ≠ some (JsValue.str s)) →
      (d.type = some (JsValue.str "summary") → ∀ m, d.market ≠ some (JsValue.str m)) →
      getDeepLinkUrl d = none) := by
  obtain ⟨t, sy, mk⟩ := d
  refine ⟨?_, ?_, ?_⟩
  · rintro s rfl rfl
    rfl
  · rintro m rfl rfl
    rfl
  · intro h1 h2
    unfold getDeepLinkUrl
    split
    · next s htype hsym =>
      exact absurd hsym (h1 htype s)
    · next m htype hmk =>
      exact absurd hmk (h2 htype m)
    · rfl

/-- Witness for C7 at the price alert payload for symbol ABC. -/
theorem getDeepLinkUrl_spec_witness :
    getDeepLinkUrl ⟨some (JsValue.str "price_alert"), some (JsValue.str "ABC"), none⟩ =
      some (API_BASE ++ "/stock/" ++ "ABC") :=
  (getDeepLinkUrl_spec ⟨some (JsValue.str "price_alert"), some (JsValue.str "ABC"), none⟩).1
    "ABC" rfl rfl

/-- A concrete environment in which the device-token fetch throws. -/
def tokenFetchThrowsEnv : PushEnv :=
  { isDevice := true, getPermissionsResult := .ok "granted",
    requestPermissionsResult := .ok "granted",
    getDevicePushTokenResult := .error (),
    fetchRegisterResult := .ok 200, fetchUnregisterResult := .ok 200 }

/-- A concrete environment in which only the registration POST throws. -/
def networkThrowsEnv : PushEnv :=
  { isDevice := true, getPermissionsResult := .ok "granted",
    requestPermissionsResult := .ok "granted",
    getDevicePushTokenResult := .ok "apns-token",
    fetchRegisterResult := .error (), fetchUnregisterResult := .error () }

/-- A concrete environment for a non-physical device. -/
def simulatorEnv : PushEnv :=
  { isDevice := false, getPermissionsResult := .ok "granted",
    requestPermissionsResult := .ok "granted",
    getDevicePushTokenResult := .ok "apns-token",
    fetchRegisterResult := .ok 200, fetchUnregisterResult := .ok 200 }

/-- A concrete environment whose unregister DELETE completes with status 500. -/
def unregisterFailsEnv : PushEnv :=
  { isDevice := true, getPermissionsResult := .ok "granted",
    requestPermissionsResult := .ok "granted",
    getDevicePushTokenResult := .ok "apns-token",
    fetchRegisterResult := .ok 200, fetchUnregisterResult := .ok 500 }

/-- C1 counterexample: when the device-token fetch throws, the exception
escapes registerForPushNotifications, because only the network request and
the local store write sit inside the try block. -/
theorem register_token_throw_counterexample :
    (registerForPushNotifications tokenFetchThrowsEnv none).ret = Except.error () := by
  decide

/-- C1 amended: exceptions thrown by the network request are caught inside
registerForPushNotifications and yield a null return with the stored token
unchanged; an exception propagates to the caller only when one of the
permission queries or the device-token fetch throws. -/
theorem register_exception_policy (env : PushEnv) (st : Option String)
    (h₁ : env.getPermissionsResult ≠ Except.error ())
    (h₂ : env.requestPermissionsResult ≠ Except.error ())
    (h₃ : env.getDevicePushTokenResult ≠ Except.error ()) :
    (registerForPushNotifications env st).ret ≠ Except.error () ∧
    (env.fetchRegisterResult = Except.error () →
      (registerForPushNotifications env st).ret = Except.ok none ∧
      (registerForPushNotifications env st).storedToken = st) := by
  obtain ⟨dev, gp, rp, gt, fr, fu⟩ := env
  simp only at h₁ h₂ h₃ ⊢
  cases dev
  · simp [registerForPushNotifications]
  · cases gp with
    | error e => exact absurd rfl h₁
    | ok s =>
      by_cases hs : s = "granted"
      · subst hs
        cases gt with
        | error e => exact absurd rfl h₃
        | ok tok =>
          cases fr with
          | error e => simp [registerForPushNotifications]
          | ok status =>
            by_cases hok : responseOk status <;>
              simp [registerForPushNotifications, hok]
      · cases rp with
        | error e => simp [registerForPushNotifications, hs]; exact absurd rfl h₂
        | ok s₂ =>
          by_cases hs₂ : s₂ = "granted"
          · subst hs₂
            cases gt with
            | error e => exact absurd rfl h₃
            | ok tok =>
              cases fr with
              | error e => simp [registerForPushNotifications, hs]
              | ok status =>
                by_cases hok : responseOk status <;>
                  simp [registerForPushNotifications, hs, hok]
          · simp [registerForPushNotifications, hs, hs₂]

/-- Witness for C1 at an environment where only the registration POST throws:
the exception is caught and null is returned, nothing stored. -/
theorem register_exception_policy_witness :
    (registerForPushNotifications networkThrowsEnv none).ret = Except.ok none ∧
    (registerForPushNotifications networkThrowsEnv none).storedToken = none :=
  (register_exception_policy networkThrowsEnv none (by decide) (by decide) (by decide)).2 rfl

/-- C9: on a non-physical device the function returns null at once, issues no
network request and leaves the stored token untouched; in any run where the
registration POST completes, a non-success status yields a null return with
nothing stored, and a success status stores the fetched device token locally
and returns it. -/
theorem register_device_and_status (env : PushEnv) (st : Option String) :
    (env.isDevice = false →
      registerForPushNotifications env st = ⟨Except.ok none, st, false⟩) ∧
    (∀ status : Nat, env.fetchRegisterResult = Except.ok status →
      (registerForPushNotifications env st).networkCalled = true →
      (responseOk status = false →
        (registerForPushNotifications env st).ret = Except.ok none ∧
        (registerForPushNotifications env st).storedToken = st) ∧
      (responseOk status = true →
        ∃ t, env.getDevicePushTokenResult = Except.ok t ∧
          (registerForPushNotifications env st).ret = Except.ok (some t) ∧
          (registerForPushNotifications env st).storedToken = some t)) := by
  obtain ⟨dev, gp, rp, gt, fr, fu⟩ := env
  constructor
  · intro hdev
    subst hdev
    simp [registerForPushNotifications]
  · rintro status rfl hnet
    cases dev
    · simp [registerForPushNotifications] at hnet
    · cases gp with
      | error e => simp [registerForPushNotifications] at hnet
      | ok s =>
        by_cases hs : s = "granted"
        · subst hs
          cases gt with
          | error e => simp [registerForPushNotifications] at hnet
          | ok tok =>
            by_cases hok : responseOk status <;>
              simp [registerForPushNotifications, hok]
        · cases rp with
          | error e => simp [registerForPushNotifications, hs] at hnet
          | ok s₂ =>
            by_cases hs₂ : s₂ = "granted"
            · subst hs₂
              cases gt with
              | error e => simp [registerForPushNotifications, hs] at hnet
              | ok tok =>
                by_cases hok : responseOk status <;>
                  simp [registerForPushNotifications, hs, hok]
            · simp [registerForPushNotifications, hs, hs₂] at hnet

/-- Witness for C9 on a non-physical device with a leftover stored token. -/
theorem register_device_and_status_witness :
    registerForPushNotifications simulatorEnv (some "leftover") =
      ⟨Except.ok none, some "leftover", false⟩ :=
  (register_device_and_status simulatorEnv (some "leftover")).1 rfl

/-- C8: unregisterPushNotifications is a no-op without a stored token; with a
stored token, whenever the DELETE request completes with any HTTP status the
local token is deleted afterwards. -/
theorem unregister_spec (env : PushEnv) (st : Option String) :
    (jsTruthyStr st = false → unregisterPushNotifications env st = ⟨st, false⟩) ∧
    (∀ t, st = some t → t ≠ "" → ∀ status : Nat,
      env.fetchUnregisterResult = Except.ok status →
      unregisterPushNotifications env st = ⟨none, true⟩) := by
  constructor
  · intro h
    simp [unregisterPushNotifications, h]
  · rintro t rfl ht status hfetch
    simp [unregisterPushNotifications, jsTruthyStr, ht, hfetch]

/-- Witness for C8 with a stored token and a DELETE completing with status 500:
the local token is deleted regardless. -/
theorem unregister_spec_witness :
    unregisterPushNotifications unregisterFailsEnv (some "apns-token") = ⟨none, true⟩ :=
  (unregister_spec unregisterFailsEnv (some "apns-token")).2 "apns-token" rfl
    (by decide) 500 rfl

/-- C10: every non-null deep-link URL starts with the site base URL, and the
navigation policy classifies it as in-app, never dispatching it externally. -/
theorem deepLink_in_app (d : NotificationData) (u : String)
    (h : getDeepLinkUrl d = some u) :
    API_BASE.data <+: u.data ∧
    (onShouldStartLoadWithRequest u).allow = true ∧
    (onShouldStartLoadWithRequest u).openedExternally = false := by
  have hform : ∃ rest : String, u = API_BASE ++ rest := by
    unfold getDeepLinkUrl at h
    split at h
    · next s _ _ =>
      exact ⟨"/stock/" ++ s, by rw [← String.append_assoc]; exact (Option.some_inj.mp h).symm⟩
    · next m _ _ =>
      exact ⟨"/news", (Option.some_inj.mp h).symm⟩
    · exact absurd h (by simp)
  obtain ⟨rest, rfl⟩ := hform
  have hdata : (API_BASE ++ rest).data = API_BASE.data ++ rest.data := String.data_append ..
  have htok : "buysidebro.com".data <:+: (API_BASE ++ rest).data := by
    rw [hdata]
    obtain ⟨pre, post, hsplit⟩ :
        ("buysidebro.com".data <:+: API_BASE.data) := by decide
    exact ⟨pre, post ++ rest.data, by rw [← hsplit]; simp⟩
  refine ⟨⟨rest.data, by rw [hdata]⟩, ?_⟩
  have hallow : jsIncludes (API_BASE ++ rest) WEBSITE_ORIGIN = true := by
    unfold jsIncludes WEBSITE_ORIGIN
    exact decide_eq_true htok
  unfold onShouldStartLoadWithRequest
  rw [hallow]
  simp

/-- Witness for C10 at the deep link of a price alert for symbol ABC. -/
theorem deepLink_in_app_witness :
    API_BASE.data <+: "https://www.buysidebro.com/stock/ABC".data ∧
    (onShouldStartLoadWithRequest "https://www.buysidebro.com/stock/ABC").allow = true ∧
    (onShouldStartLoadWithRequest "https://www.buysidebro.com/stock/ABC").openedExternally =
      false :=
  deepLink_in_app ⟨some (JsValue.str "price_alert"), some (JsValue.str "ABC"), none⟩
    "https://www.buysidebro.com/stock/ABC" (by decide)

end BuySideBro
